import Mathlib

/-!
Shallow embedding of the stream-ingestion engine of `xcoffee` (src/src/main.rs).

The engine lives in `XCoffee::subscription`: a state machine with states
`Connecting`, `Streaming { stream, buffer, boundary, is_first_frame }` and
`Sleeping(Duration)`.  Bytes are modelled as `Nat` (one per `u8`), buffers as
`List Nat`, and the header strings handled by the connection arm as `List Char`
(mirroring Rust `&str` operations character by character).  The network is an
explicit input: the connect arm takes the HTTP response as a value, the
streaming arm takes the list of chunk events the byte stream would deliver.
-/

namespace XCoffee

/-- ASCII/UTF-32 code points of a Lean string literal, standing for the raw
bytes of the corresponding Rust byte-string (all literals used here are ASCII,
where the two coincide). -/
def strBytes (s : String) : List Nat :=
  s.data.map Char.toNat

/-- The bytes of `b"\r\n"`. -/
def crlf : List Nat := strBytes "\r\n"

/-- The bytes of `b"\r\n\r\n"` (`header_body_separator` in the source). -/
def header_body_separator : List Nat := strBytes "\r\n\r\n"

/-- Source `buffer.windows(tok.len()).position(|w| w == &tok)`:
offset of the first contiguous occurrence of `tok` in `buf`, if any.
(Rust panics on `windows(0)`; here an empty `tok` is reported at offset 0,
a case the engine never reaches because its boundary tokens start with `--`.) -/
def findSubseq : List Nat → List Nat → Option Nat
  | [], tok => if tok = [] then some 0 else none
  | b :: bs, tok =>
      if (b :: bs).take tok.length = tok then some 0
      else (findSubseq bs tok).map (· + 1)

/-- The part decoder (source lines 231-239): find the `\r\n\r\n` header/body
separator in the part; if present take everything after it as `image_data`,
rejecting an empty result; if absent yield nothing. -/
def decodePart (part_data : List Nat) : Option (List Nat) :=
  match findSubseq part_data header_body_separator with
  | none => none
  | some separator_pos =>
      let image_data := part_data.drop (separator_pos + header_body_separator.length)
      if image_data.isEmpty then none else some image_data

/-- Source `boundary_to_search` (lines 219-223): the raw boundary for the
first frame, the CRLF-prefixed boundary afterwards. -/
def boundary_to_search (boundary : List Nat) (is_first_frame : Bool) : List Nat :=
  if is_first_frame then boundary else crlf ++ boundary

/-- Outcome of draining the accumulation buffer without touching the network:
either one frame is cut out (with the buffer that remains), or the retained
buffer needs more data. -/
inductive Outcome where
  | frameReady (payload rest : List Nat)
  | needMoreData (buffer : List Nat)
  deriving DecidableEq, Repr

/-- The demultiplexer part of the `State::Streaming` loop (source lines
218-253), stopping where the source would `await` the stream: search for
`boundary_to_search`; on a hit cut the candidate part `buffer[..boundary_pos]`,
decode it, and either emit its payload (consuming part and trailing token) or
silently consume part and token and rescan; on a miss report that more data is
needed.  The source's unbounded `loop` is totalised by fuel: every pass that
does not emit consumes at least one byte whenever the search token is
non-empty, so `buffer.length + 1` passes always suffice (the empty-token case
is unreachable in the engine — there the source panics in `windows(0)`). -/
def drainAux : Nat → List Nat → List Nat → Bool → Outcome
  | 0, buffer, _, _ => .needMoreData buffer
  | fuel + 1, buffer, boundary, is_first_frame =>
      match findSubseq buffer (boundary_to_search boundary is_first_frame) with
      | some boundary_pos =>
          match (if (buffer.take boundary_pos).isEmpty then none
                 else decodePart (buffer.take boundary_pos)) with
          | some image_data =>
              .frameReady image_data
                (buffer.drop
                  (boundary_pos + (boundary_to_search boundary is_first_frame).length))
          | none =>
              drainAux fuel
                (buffer.drop
                  (boundary_pos + (boundary_to_search boundary is_first_frame).length))
                boundary is_first_frame
      | none => .needMoreData buffer

/-- One full drain of the accumulation buffer, with enough fuel for the worst
case. -/
def drain (buffer boundary : List Nat) (is_first_frame : Bool) : Outcome :=
  drainAux (buffer.length + 1) buffer boundary is_first_frame

instance : DecidableEq (Except String (List Nat)) := fun a b =>
  match a, b with
  | .error x, .error y => decidable_of_iff (x = y) (by simp)
  | .error _, .ok _ => isFalse (by simp)
  | .ok _, .error _ => isFalse (by simp)
  | .ok x, .ok y => decidable_of_iff (x = y) (by simp)

/-- The `Message` enum of the source, restricted to the constructors the
subscription produces (`ToggleTrojanView` is UI-only and never emitted by the
engine). -/
inductive Msg where
  | imageLoaded (r : Except String (List Nat))
  | error (e : String)
  deriving DecidableEq, Repr

/-- The `State` enum of the subscription.  The live byte stream handle is not
part of the state here; the chunks it would deliver are passed explicitly to
each activation. -/
inductive DState where
  | connecting
  | streaming (buffer boundary : List Nat) (is_first_frame : Bool)
  | sleeping (secs : Nat)
  deriving DecidableEq, Repr

/-- One event delivered by `stream.next().await`: `Some(Ok(chunk))`,
`Some(Err(e))`, or `None` (end of stream). -/
inductive ChunkEv where
  | ok (chunk : List Nat)
  | err (e : String)
  | eos
  deriving DecidableEq, Repr

/-- Result of one activation of the `State::Streaming` arm: either the loop
`break`s with an outward message, a successor state and the chunk events not
yet consumed, or it is suspended in `stream.next().await` holding the retained
buffer, with every supplied event consumed. -/
inductive StepRes where
  | emit (msg : Msg) (next : DState) (rest : List ChunkEv)
  | awaiting (buffer : List Nat)
  deriving DecidableEq, Repr

/-- The `State::Streaming` arm (source lines 213-273): drain the buffer; on a
frame, break with `ImageLoaded(Ok(..))` and `is_first_frame = false`; when more
data is needed, take the next chunk event — `Ok` appends to the buffer and
loops, `Err` and `None` break to `Sleeping(5s)` with an error message. -/
def streamingStep (boundary buffer : List Nat) (is_first_frame : Bool)
    (events : List ChunkEv) : StepRes :=
  match drain buffer boundary is_first_frame with
  | .frameReady image_data rest =>
      .emit (.imageLoaded (.ok image_data))
        (.streaming rest boundary false) events
  | .needMoreData buf =>
      match events with
      | [] => .awaiting buf
      | .ok chunk :: evs => streamingStep boundary (buf ++ chunk) is_first_frame evs
      | .err e :: evs =>
          .emit (.error ("Stream error: " ++ e)) (.sleeping 5) evs
      | .eos :: evs =>
          .emit (.error "Stream ended. Reconnecting...") (.sleeping 5) evs
termination_by events.length
decreasing_by simp

/-- The `State::Sleeping` arm (source lines 274-281): after the delay, emit
"Reconnecting..." and go back to `Connecting`.  The suspension itself is real
time and not modelled; the carried duration is ignored by the transition, as in
the source. -/
def sleepingStep (_duration : Nat) : Msg × DState :=
  (.error "Reconnecting...", .connecting)

/-- Rust `str::split(sep)` over a character list: maximal separator-free
segments, with empty segments kept. -/
def splitChar (sep : Char) : List Char → List (List Char)
  | [] => [[]]
  | c :: rest =>
      match splitChar sep rest with
      | [] => [[]]
      | h :: t => if c = sep then [] :: h :: t else (c :: h) :: t

/-- Rust `str::trim` over a character list (whitespace at both ends removed;
ASCII whitespace suffices for the headers involved). -/
def trimChars (s : List Char) : List Char :=
  ((s.dropWhile Char.isWhitespace).reverse.dropWhile Char.isWhitespace).reverse

/-- UTF-8 bytes of an ASCII character list (`String::into_bytes` in the
source; all negotiated boundaries in scope are ASCII). -/
def charBytes (s : List Char) : List Nat := s.map Char.toNat

/-- What the connect arm reads off a `reqwest::Response`: the status code and
the `content-type` header as text, when present and readable
(`headers().get("content-type").and_then(|v| v.to_str().ok())`). -/
structure HttpResponse where
  status : Nat
  contentType : Option (List Char)
  deriving DecidableEq, Repr

/-- Rust `StatusCode::is_success()`: 2xx. -/
def statusIsSuccess (status : Nat) : Bool := 200 ≤ status && status ≤ 299

/-- The characters of the attribute prefix `"boundary="` searched for in the
content type. -/
def boundaryAttrMarker : List Char := "boundary=".data

/-- The `State::Connecting` arm (source lines 146-211): on a transport error
or any failed negotiation step, emit a descriptive error and go to
`Sleeping(5s)`; on full success emit "Connected. Waiting for frame..." and
enter `Streaming` with an empty buffer, `--<boundary>` as token and
`is_first_frame = true`.  (The bad-status message renders the code alone where
the source's `Display` also appends the canonical reason phrase.) -/
def connectStep (resp : Except String HttpResponse) : Msg × DState :=
  match resp with
  | .error e => (.error ("Connection error: " ++ e), .sleeping 5)
  | .ok response =>
      if statusIsSuccess response.status then
        match response.contentType with
        | some ct =>
            match (splitChar ';' ct).find?
                (fun s => List.isPrefixOf boundaryAttrMarker (trimChars s)) with
            | some boundary_str =>
                if (trimChars (((splitChar '=' boundary_str).get? 1).getD [])).isEmpty then
                  (.error "Empty boundary in Content-Type header", .sleeping 5)
                else
                  (.error "Connected. Waiting for frame...",
                    .streaming []
                      (charBytes
                        ('-' :: '-' ::
                          trimChars (((splitChar '=' boundary_str).get? 1).getD [])))
                      true)
            | none => (.error "Boundary not found in Content-Type header", .sleeping 5)
        | none => (.error "Missing Content-Type header", .sleeping 5)
      else
        (.error ("Connection failed with status: " ++ toString response.status),
          .sleeping 5)

/-- The full success condition of the connect arm, read off the spec: response
received, 2xx status, content type present, a `boundary=` attribute found, and
a non-empty boundary value after trimming. -/
def connectSuccess (resp : Except String HttpResponse) : Bool :=
  match resp with
  | .error _ => false
  | .ok response =>
      statusIsSuccess response.status &&
      match response.contentType with
      | none => false
      | some ct =>
          match (splitChar ';' ct).find?
              (fun s => List.isPrefixOf boundaryAttrMarker (trimChars s)) with
          | none => false
          | some boundary_str =>
              !(trimChars (((splitChar '=' boundary_str).get? 1).getD [])).isEmpty

/-- Spec wording of the search token (§4.4 step 1): "the raw boundary if
`is_first_frame`, else the raw boundary prefixed with CRLF". -/
def specSearchToken (boundary : List Nat) (is_first_frame : Bool) : List Nat :=
  match is_first_frame with
  | true => boundary
  | false => crlf ++ boundary

/-- A found offset points at an actual occurrence of the token. -/
theorem findSubseq_matches {buf tok : List Nat} {p : Nat}
    (h : findSubseq buf tok = some p) :
    (buf.drop p).take tok.length = tok := by
  induction buf generalizing p with
  | nil =>
      simp only [findSubseq] at h
      split at h
      · cases h; simp_all
      · cases h
  | cons b bs ih =>
      simp only [findSubseq] at h
      split at h
      · cases h; simpa using ‹(b :: bs).take tok.length = tok›
      · cases hrec : findSubseq bs tok with
        | none => rw [hrec] at h; cases h
        | some q =>
            rw [hrec] at h
            simp only [Option.map_some'] at h
            cases h
            simpa using ih hrec

/-- The function `findSubseq` returns the first occurrence: no earlier offset matches. -/
theorem findSubseq_least {buf tok : List Nat} {p : Nat}
    (h : findSubseq buf tok = some p) :
    ∀ q, q < p → (buf.drop q).take tok.length ≠ tok := by
  induction buf generalizing p with
  | nil =>
      simp only [findSubseq] at h
      split at h
      · cases h; omega
      · cases h
  | cons b bs ih =>
      simp only [findSubseq] at h
      split at h
      · cases h; omega
      · cases hrec : findSubseq bs tok with
        | none => rw [hrec] at h; cases h
        | some r =>
            rw [hrec] at h
            simp only [Option.map_some'] at h
            cases h
            intro q hq
            cases q with
            | zero => simpa using ‹¬(b :: bs).take tok.length = tok›
            | succ q' =>
                simpa using ih hrec q' (by omega)

/-- A found token lies wholly inside the buffer. -/
theorem findSubseq_le {buf tok : List Nat} {p : Nat}
    (h : findSubseq buf tok = some p) :
    p + tok.length ≤ buf.length := by
  induction buf generalizing p with
  | nil =>
      simp only [findSubseq] at h
      split at h
      · cases h; simp_all
      · cases h
  | cons b bs ih =>
      simp only [findSubseq] at h
      split at h
      · cases h
        have := congrArg List.length ‹(b :: bs).take tok.length = tok›
        simp only [List.length_take, List.length_cons, Nat.min_def] at this
        simp only [List.length_cons]
        split at this <;> omega
      · cases hrec : findSubseq bs tok with
        | none => rw [hrec] at h; cases h
        | some q =>
            rw [hrec] at h
            simp only [Option.map_some'] at h
            cases h
            have := ih hrec
            simp only [List.length_cons]
            omega

/-- If the buffer has no occurrence of the token, neither does any of it. -/
theorem findSubseq_none {buf tok : List Nat}
    (h : findSubseq buf tok = none) :
    ∀ q, (buf.drop q).take tok.length ≠ tok := by
  induction buf with
  | nil =>
      intro q
      simp only [findSubseq] at h
      split at h
      · cases h
      · intro hc
        have : tok.length ≤ 0 := by
          have := congrArg List.length hc
          simp only [List.length_take, List.drop_nil, List.length_nil] at this
          omega
        have : tok = [] := List.eq_nil_of_length_eq_zero (by omega)
        simp_all
  | cons b bs ih =>
      intro q
      simp only [findSubseq] at h
      split at h
      · cases h
      · cases hrec : findSubseq bs tok with
        | some r => rw [hrec] at h; simp at h
        | none =>
            cases q with
            | zero => simpa using ‹¬(b :: bs).take tok.length = tok›
            | succ q' => simpa using ih hrec q'

/-- With an empty search token the loop spins without consuming anything (the
source would panic); every fuel level reports `needMoreData` unchanged. -/
theorem drainAux_empty_tok {boundary : List Nat} {is_first_frame : Bool}
    (htok : boundary_to_search boundary is_first_frame = []) :
    ∀ fuel buffer, drainAux fuel buffer boundary is_first_frame = .needMoreData buffer := by
  intro fuel
  induction fuel with
  | zero => intro buffer; rfl
  | succ f ih =>
      intro buffer
      have hfind : findSubseq buffer (boundary_to_search boundary is_first_frame) = some 0 := by
        rw [htok]
        cases buffer <;> simp [findSubseq]
      simp only [drainAux, hfind, List.take_zero, List.isEmpty_nil, if_true]
      rw [htok]
      simpa using ih buffer

/-- The result of `drainAux` does not depend on the fuel, as long as there is
more fuel than bytes in the buffer. -/
theorem drainAux_fuel {fuel₁ fuel₂ : Nat} {buffer boundary : List Nat}
    {is_first_frame : Bool}
    (h₁ : buffer.length < fuel₁) (h₂ : buffer.length < fuel₂) :
    drainAux fuel₁ buffer boundary is_first_frame
      = drainAux fuel₂ buffer boundary is_first_frame := by
  induction fuel₁ generalizing fuel₂ buffer with
  | zero => omega
  | succ f₁ ih =>
      by_cases htok : boundary_to_search boundary is_first_frame = []
      · rw [drainAux_empty_tok htok, drainAux_empty_tok htok]
      · cases fuel₂ with
        | zero => omega
        | succ f₂ =>
            simp only [drainAux]
            cases hfind : findSubseq buffer (boundary_to_search boundary is_first_frame) with
            | none => rfl
            | some boundary_pos =>
                simp only []
                cases hdec : (if (buffer.take boundary_pos).isEmpty then none
                              else decodePart (buffer.take boundary_pos)) with
                | some image_data => rfl
                | none =>
                    have hle := findSubseq_le hfind
                    have htoklen : 0 < (boundary_to_search boundary is_first_frame).length := by
                      cases hh : boundary_to_search boundary is_first_frame with
                      | nil => exact absurd hh htok
                      | cons a l => simp
                    have hlt : (buffer.drop
                        (boundary_pos + (boundary_to_search boundary is_first_frame).length)).length
                          < buffer.length := by
                      simp only [List.length_drop]
                      omega
                    exact ih (by omega) (by omega)

/-- When the search token is absent, a drain is a no-op on the buffer. -/
theorem drain_of_none {buffer boundary : List Nat} {is_first_frame : Bool}
    (h : findSubseq buffer (boundary_to_search boundary is_first_frame) = none) :
    drain buffer boundary is_first_frame = .needMoreData buffer := by
  simp [drain, drainAux, h]

/-- When the token is found but the candidate part yields no payload, the
drain discards part and token and continues on the remainder. -/
theorem drain_skip {buffer boundary : List Nat} {is_first_frame : Bool}
    {boundary_pos : Nat}
    (h : findSubseq buffer (boundary_to_search boundary is_first_frame)
          = some boundary_pos)
    (hdec : (if (buffer.take boundary_pos).isEmpty then none
             else decodePart (buffer.take boundary_pos)) = none)
    (hz : boundary_pos + (boundary_to_search boundary is_first_frame).length ≠ 0) :
    drain buffer boundary is_first_frame
      = drain
          (buffer.drop
            (boundary_pos + (boundary_to_search boundary is_first_frame).length))
          boundary is_first_frame := by
  have hle := findSubseq_le h
  have hpos : 0 < buffer.length := by omega
  show drainAux (buffer.length + 1) buffer boundary is_first_frame = _
  conv_lhs => rw [show buffer.length + 1 = buffer.length + 1 from rfl]
  rw [show drainAux (buffer.length + 1) buffer boundary is_first_frame
        = drainAux buffer.length
            (buffer.drop
              (boundary_pos + (boundary_to_search boundary is_first_frame).length))
            boundary is_first_frame from by
    simp only [drainAux, h, hdec]]
  exact drainAux_fuel (by simp only [List.length_drop]; omega)
    (by simp only [List.length_drop]; omega)

/-- When the token is found and the candidate part decodes, the drain emits
its payload and consumes part and token. -/
theorem drain_emit {buffer boundary : List Nat} {is_first_frame : Bool}
    {boundary_pos : Nat} {image_data : List Nat}
    (h : findSubseq buffer (boundary_to_search boundary is_first_frame)
          = some boundary_pos)
    (hdec : (if (buffer.take boundary_pos).isEmpty then none
             else decodePart (buffer.take boundary_pos)) = some image_data) :
    drain buffer boundary is_first_frame
      = .frameReady image_data
          (buffer.drop
            (boundary_pos + (boundary_to_search boundary is_first_frame).length)) := by
  simp only [drain, drainAux, h, hdec]

/-- Every payload a drain emits came out of `decodePart`, hence is non-empty. -/
theorem drainAux_frame_nonempty {fuel : Nat} {buffer boundary : List Nat}
    {is_first_frame : Bool} {payload rest : List Nat}
    (h : drainAux fuel buffer boundary is_first_frame = .frameReady payload rest) :
    payload ≠ [] := by
  induction fuel generalizing buffer with
  | zero => simp [drainAux] at h
  | succ f ih =>
      cases hfind : findSubseq buffer (boundary_to_search boundary is_first_frame) with
      | none => simp only [drainAux, hfind] at h; cases h
      | some boundary_pos =>
          cases hdec : (if (buffer.take boundary_pos).isEmpty then none
                        else decodePart (buffer.take boundary_pos)) with
          | none =>
              simp only [drainAux, hfind, hdec] at h
              exact ih h
          | some image_data =>
              simp only [drainAux, hfind, hdec, Outcome.frameReady.injEq] at h
              obtain ⟨rfl, rfl⟩ := h
              split at hdec
              · cases hdec
              · simp only [decodePart] at hdec
                split at hdec
                · cases hdec
                · split at hdec
                  · cases hdec
                  · cases hdec
                    intro hc
                    simp [hc] at *

/-- An empty token is reported at offset 0 of any buffer. -/
theorem findSubseq_nil_tok (buf : List Nat) : findSubseq buf [] = some 0 := by
  cases buf <;> simp [findSubseq]

/-- Every payload a drain emits is cut from the bytes strictly before the
first occurrence of the searched token, so the token does not occur in it. -/
theorem drainAux_frame_no_token {fuel : Nat} {buffer boundary : List Nat}
    {is_first_frame : Bool} {payload rest : List Nat}
    (h : drainAux fuel buffer boundary is_first_frame = .frameReady payload rest) :
    findSubseq payload (boundary_to_search boundary is_first_frame) = none := by
  induction fuel generalizing buffer with
  | zero => simp [drainAux] at h
  | succ f ih =>
      cases hfind : findSubseq buffer (boundary_to_search boundary is_first_frame) with
      | none => simp only [drainAux, hfind] at h; cases h
      | some boundary_pos =>
          cases hdec : (if (buffer.take boundary_pos).isEmpty then none
                        else decodePart (buffer.take boundary_pos)) with
          | none =>
              simp only [drainAux, hfind, hdec] at h
              exact ih h
          | some image_data =>
              simp only [drainAux, hfind, hdec, Outcome.frameReady.injEq] at h
              obtain ⟨rfl, rfl⟩ := h
              by_cases htok : boundary_to_search boundary is_first_frame = []
              · rw [htok, findSubseq_nil_tok buffer] at hfind
                cases hfind
                simp [decodePart] at hdec
              · split at hdec
                · cases hdec
                · simp only [decodePart] at hdec
                  cases hsep : findSubseq (buffer.take boundary_pos)
                      header_body_separator with
                  | none => rw [hsep] at hdec; cases hdec
                  | some separator_pos =>
                      rw [hsep] at hdec
                      simp only [] at hdec
                      split at hdec
                      · cases hdec
                      · cases hdec
                        cases hq : findSubseq
                            ((buffer.take boundary_pos).drop
                              (separator_pos + header_body_separator.length))
                            (boundary_to_search boundary is_first_frame) with
                        | none => rfl
                        | some q =>
                            exfalso
                            have hm := findSubseq_matches hq
                            rw [List.drop_drop, List.drop_take, List.take_take] at hm
                            have hlen := congrArg List.length hm
                            simp only [List.length_take, List.length_drop] at hlen
                            have htl : 0 <
                                (boundary_to_search boundary is_first_frame).length := by
                              cases hh : boundary_to_search boundary is_first_frame with
                              | nil => exact absurd hh htok
                              | cons a l => simp
                            set tl := (boundary_to_search boundary is_first_frame).length
                              with htldef
                            set m := separator_pos + header_body_separator.length + q
                              with hmdef
                            have hle : tl ≤ boundary_pos - m := by omega
                            have hmin : min tl (boundary_pos - m) = tl := by omega
                            rw [hmin] at hm
                            have hmp : m < boundary_pos := by omega
                            exact findSubseq_least hfind m hmp hm

/-- A streaming activation only ever enters `Sleeping` with the fixed
5-second delay. -/
theorem streamingStep_sleep_delay {boundary : List Nat} {buffer : List Nat}
    {is_first_frame : Bool} {events : List ChunkEv} {m : Msg} {s : DState}
    {r : List ChunkEv}
    (h : streamingStep boundary buffer is_first_frame events = .emit m s r) :
    ∀ d, s = .sleeping d → d = 5 := by
  induction events generalizing buffer with
  | nil =>
      rw [streamingStep] at h
      cases hdr : drain buffer boundary is_first_frame with
      | frameReady image_data rest =>
          rw [hdr] at h
          cases h
          intro d hd
          cases hd
      | needMoreData buf => rw [hdr] at h; cases h
  | cons ev evs ih =>
      rw [streamingStep] at h
      cases hdr : drain buffer boundary is_first_frame with
      | frameReady image_data rest =>
          rw [hdr] at h
          cases h
          intro d hd
          cases hd
      | needMoreData buf =>
          rw [hdr] at h
          cases ev with
          | ok chunk => exact ih h
          | err e =>
              cases h
              intro d hd
              cases hd
              rfl
          | eos =>
              cases h
              intro d hd
              cases hd
              rfl

/-- When a drain needs more data and a chunk arrives, the activation appends
it to the retained buffer and rescans, without emitting anything. -/
theorem streamingStep_append {boundary buffer buf chunk : List Nat}
    {is_first_frame : Bool} {evs : List ChunkEv}
    (h : drain buffer boundary is_first_frame = .needMoreData buf) :
    streamingStep boundary buffer is_first_frame (.ok chunk :: evs)
      = streamingStep boundary (buf ++ chunk) is_first_frame evs := by
  conv_lhs => rw [streamingStep]
  rw [h]

/-- When a drain completes a frame, the activation emits it and stays
streaming with `is_first_frame := false`. -/
theorem streamingStep_emit {boundary buffer image_data rest : List Nat}
    {is_first_frame : Bool} {events : List ChunkEv}
    (h : drain buffer boundary is_first_frame = .frameReady image_data rest) :
    streamingStep boundary buffer is_first_frame events
      = .emit (.imageLoaded (.ok image_data))
          (.streaming rest boundary false) events := by
  conv_lhs => rw [streamingStep]
  rw [h]

/-- With no chunk event left to consume, a data-starved activation suspends in
`stream.next().await`, holding the retained buffer. -/
theorem streamingStep_await {boundary buffer buf : List Nat}
    {is_first_frame : Bool}
    (h : drain buffer boundary is_first_frame = .needMoreData buf) :
    streamingStep boundary buffer is_first_frame [] = .awaiting buf := by
  conv_lhs => rw [streamingStep]
  rw [h]

/-- A transport error while waiting for data emits a stream error and goes to
`Sleeping(5s)`. -/
theorem streamingStep_err {boundary buffer buf : List Nat}
    {is_first_frame : Bool} {e : String} {evs : List ChunkEv}
    (h : drain buffer boundary is_first_frame = .needMoreData buf) :
    streamingStep boundary buffer is_first_frame (.err e :: evs)
      = .emit (.error ("Stream error: " ++ e)) (.sleeping 5) evs := by
  conv_lhs => rw [streamingStep]
  rw [h]

/-- End of stream while waiting for data emits "stream ended" and goes to
`Sleeping(5s)`. -/
theorem streamingStep_eos {boundary buffer buf : List Nat}
    {is_first_frame : Bool} {evs : List ChunkEv}
    (h : drain buffer boundary is_first_frame = .needMoreData buf) :
    streamingStep boundary buffer is_first_frame (.eos :: evs)
      = .emit (.error "Stream ended. Reconnecting...") (.sleeping 5) evs := by
  conv_lhs => rw [streamingStep]
  rw [h]

/-- Every failed connection attempt emits an error message and schedules the
fixed 5-second sleep. -/
theorem connectStep_of_failure (resp : Except String HttpResponse)
    (h : connectSuccess resp = false) :
    ∃ e, connectStep resp = (.error e, .sleeping 5) := by
  cases resp with
  | error e => exact ⟨"Connection error: " ++ e, rfl⟩
  | ok response =>
      simp only [connectSuccess] at h
      simp only [connectStep]
      split
      next hs =>
        split
        next ct hct =>
          split
          next boundary_str hfind =>
            split
            next hemp => exact ⟨_, rfl⟩
            next hemp =>
                exfalso
                simp only [hs, hct, hfind, Bool.true_and, Bool.not_eq_false'] at h
                exact hemp h
          next hfind => exact ⟨_, rfl⟩
        next hct => exact ⟨_, rfl⟩
      next hs => exact ⟨_, rfl⟩

/-- The connect arm only ever enters `Sleeping` with the fixed 5-second
delay. -/
theorem connectStep_sleep_delay (resp : Except String HttpResponse)
    {m : Msg} {s : DState} (h : connectStep resp = (m, s)) :
    ∀ d, s = .sleeping d → d = 5 := by
  cases resp with
  | error e =>
      cases h
      intro d hd
      cases hd
      rfl
  | ok response =>
      simp only [connectStep] at h
      split at h
      · split at h
        · split at h
          · split at h
            · cases h
              intro d hd
              cases hd
              rfl
            · cases h
              intro d hd
              cases hd
          · cases h
            intro d hd
            cases hd
            rfl
        · cases h
          intro d hd
          cases hd
          rfl
      · cases h
        intro d hd
        cases hd
        rfl

/-- C1 counterexample.  On the spec's buffer
`--BOUND\r\nH\r\n\r\nA--BOUND\r\nH\r\n\r\nB--BOUND` with `is_first_frame = true`
the first drain does emit payload `A`, but the follow-up drain (now with
`is_first_frame = false`, searching for `\r\n--BOUND`) finds no boundary —
`B` is followed by `--BOUND` with no CRLF in between — and reports that more
data is needed instead of emitting a second frame with payload `B`. -/
theorem c1_counterexample :
    drain (strBytes "--BOUND\r\nH\r\n\r\nA--BOUND\r\nH\r\n\r\nB--BOUND")
        (strBytes "--BOUND") true
      = .frameReady (strBytes "A") (strBytes "\r\nH\r\n\r\nB--BOUND") ∧
    drain (strBytes "\r\nH\r\n\r\nB--BOUND") (strBytes "--BOUND") false
      = .needMoreData (strBytes "\r\nH\r\n\r\nB--BOUND") := by
  constructor
  · decide
  · decide

/-- C1 (amended).  Starting in Streaming with the spec's buffer and
`is_first_frame = true`, the first activation emits a frame with payload
exactly `A` and moves to `is_first_frame = false` with `\r\nH\r\n\r\nB--BOUND`
retained; the next activation emits no frame and suspends awaiting more
network input, because the subsequent-frame token `\r\n--BOUND` does not occur
in the retained buffer. -/
theorem c1_first_frame_only :
    streamingStep (strBytes "--BOUND")
        (strBytes "--BOUND\r\nH\r\n\r\nA--BOUND\r\nH\r\n\r\nB--BOUND") true []
      = .emit (.imageLoaded (.ok (strBytes "A")))
          (.streaming (strBytes "\r\nH\r\n\r\nB--BOUND") (strBytes "--BOUND") false)
          [] ∧
    streamingStep (strBytes "--BOUND") (strBytes "\r\nH\r\n\r\nB--BOUND") false []
      = .awaiting (strBytes "\r\nH\r\n\r\nB--BOUND") := by
  constructor
  · exact streamingStep_emit (by decide)
  · exact streamingStep_await (by decide)

/-- C2.  Feeding the chunks `--X\r\n`, `Content-Type: a\r\n\r\nDATA1--X\r\nCont`
and `ent-Type: a\r\n\r\nDATA2` with boundary `--X` into a fresh Streaming state:
the engine consumes the first two chunks, emits exactly one frame with payload
`DATA1`, and retains `\r\nCont`; the next activation consumes the final chunk
and suspends awaiting more data with `DATA2` still buffered (no frame
emitted). -/
theorem c2_end_to_end :
    streamingStep (strBytes "--X") [] true
        [.ok (strBytes "--X\r\n"),
         .ok (strBytes "Content-Type: a\r\n\r\nDATA1--X\r\nCont"),
         .ok (strBytes "ent-Type: a\r\n\r\nDATA2")]
      = .emit (.imageLoaded (.ok (strBytes "DATA1")))
          (.streaming (strBytes "\r\nCont") (strBytes "--X") false)
          [.ok (strBytes "ent-Type: a\r\n\r\nDATA2")] ∧
    streamingStep (strBytes "--X") (strBytes "\r\nCont") false
        [.ok (strBytes "ent-Type: a\r\n\r\nDATA2")]
      = .awaiting (strBytes "\r\nContent-Type: a\r\n\r\nDATA2") := by
  constructor
  · calc streamingStep (strBytes "--X") [] true
          [.ok (strBytes "--X\r\n"),
           .ok (strBytes "Content-Type: a\r\n\r\nDATA1--X\r\nCont"),
           .ok (strBytes "ent-Type: a\r\n\r\nDATA2")]
        = streamingStep (strBytes "--X") ([] ++ strBytes "--X\r\n") true
            [.ok (strBytes "Content-Type: a\r\n\r\nDATA1--X\r\nCont"),
             .ok (strBytes "ent-Type: a\r\n\r\nDATA2")] :=
          streamingStep_append (by decide)
      _ = streamingStep (strBytes "--X")
            (strBytes "\r\n" ++ strBytes "Content-Type: a\r\n\r\nDATA1--X\r\nCont")
            true [.ok (strBytes "ent-Type: a\r\n\r\nDATA2")] :=
          streamingStep_append (by decide)
      _ = .emit (.imageLoaded (.ok (strBytes "DATA1")))
            (.streaming (strBytes "\r\nCont") (strBytes "--X") false)
            [.ok (strBytes "ent-Type: a\r\n\r\nDATA2")] :=
          streamingStep_emit (by decide)
  · calc streamingStep (strBytes "--X") (strBytes "\r\nCont") false
          [.ok (strBytes "ent-Type: a\r\n\r\nDATA2")]
        = streamingStep (strBytes "--X")
            (strBytes "\r\nCont" ++ strBytes "ent-Type: a\r\n\r\nDATA2") false [] :=
          streamingStep_append (by decide)
      _ = .awaiting (strBytes "\r\nContent-Type: a\r\n\r\nDATA2") :=
          streamingStep_await (by decide)

/-- C3.  On every iteration the byte sequence searched for is exactly the raw
boundary token when `is_first_frame` is true, and the CRLF-prefixed token when
it is false: the source's `boundary_to_search` coincides with the spec's
token, and a buffer in which the spec's token does not occur makes the
demultiplexer report that more data is needed. -/
theorem c3_searched_token (boundary : List Nat) (is_first_frame : Bool) :
    boundary_to_search boundary is_first_frame
      = specSearchToken boundary is_first_frame ∧
    ∀ buffer,
      findSubseq buffer (specSearchToken boundary is_first_frame) = none →
      drain buffer boundary is_first_frame = .needMoreData buffer := by
  have heq : boundary_to_search boundary is_first_frame
      = specSearchToken boundary is_first_frame := by
    cases is_first_frame <;> rfl
  refine ⟨heq, fun buffer h => ?_⟩
  exact drain_of_none (heq ▸ h)

/-- C3 witness: concrete instance with `is_first_frame = false` and a buffer
free of `\r\n--B`. -/
theorem c3_searched_token_witness :
    findSubseq (strBytes "AB--B") (specSearchToken (strBytes "--B") false)
      = none ∧
    drain (strBytes "AB--B") (strBytes "--B") false
      = .needMoreData (strBytes "AB--B") :=
  ⟨by decide, (c3_searched_token (strBytes "--B") false).2 (strBytes "AB--B") (by decide)⟩

/-- C4.  Part decoding yields no payload when the part has no CRLF CRLF
separator; when the separator is present the payload is exactly every byte
after its first occurrence, with a zero-byte payload treated as no payload;
and consequently a zero-length frame is never emitted by a drain. -/
theorem c4_part_decoding (part_data : List Nat) :
    (findSubseq part_data header_body_separator = none →
      decodePart part_data = none) ∧
    (∀ separator_pos,
      findSubseq part_data header_body_separator = some separator_pos →
      decodePart part_data =
        if part_data.drop (separator_pos + header_body_separator.length) = []
        then none
        else some (part_data.drop (separator_pos + header_body_separator.length))) ∧
    (∀ buffer boundary is_first_frame payload rest,
      drain buffer boundary is_first_frame = .frameReady payload rest →
      payload ≠ []) := by
  refine ⟨fun h => ?_, fun separator_pos h => ?_, ?_⟩
  · simp only [decodePart, h]
  · simp only [decodePart, h]
    rcases hx : part_data.drop (separator_pos + header_body_separator.length) with _ | ⟨a, l⟩
    · simp
    · simp
  · intro buffer boundary is_first_frame payload rest h
    exact drainAux_frame_nonempty h

/-- C4 witness: a spec-shaped part decodes to its payload; drains only emit
non-empty payloads. -/
theorem c4_part_decoding_witness :
    findSubseq (strBytes "Content-Type: image/jpeg\r\n\r\npayload")
        header_body_separator = some 24 ∧
    decodePart (strBytes "Content-Type: image/jpeg\r\n\r\npayload")
      = (if (strBytes "Content-Type: image/jpeg\r\n\r\npayload").drop
              (24 + header_body_separator.length) = []
         then none
         else some ((strBytes "Content-Type: image/jpeg\r\n\r\npayload").drop
              (24 + header_body_separator.length))) ∧
    drain (strBytes "--B\r\n\r\nZ--B") (strBytes "--B") true
      = .frameReady (strBytes "Z") [] ∧
    strBytes "Z" ≠ [] :=
  ⟨by decide,
   (c4_part_decoding (strBytes "Content-Type: image/jpeg\r\n\r\npayload")).2.1
     24 (by decide),
   by decide,
   (c4_part_decoding []).2.2 (strBytes "--B\r\n\r\nZ--B") (strBytes "--B") true
     (strBytes "Z") [] (by decide)⟩

/-- C5.  A boundary hit at offset `p` whose candidate part yields no payload
(empty part, no separator, or empty payload) is still consumed together with
the token — `buffer[0 .. p + token.len]` is removed — and the demultiplexer
continues scanning the remainder within the same activation, emitting neither
a frame nor an error for that segment. -/
theorem c5_malformed_part_drained (buffer boundary : List Nat)
    (is_first_frame : Bool) (boundary_pos : Nat)
    (h : findSubseq buffer (boundary_to_search boundary is_first_frame)
          = some boundary_pos)
    (hdec : (if (buffer.take boundary_pos).isEmpty then none
             else decodePart (buffer.take boundary_pos)) = none)
    (hz : boundary_pos + (boundary_to_search boundary is_first_frame).length ≠ 0) :
    drain buffer boundary is_first_frame
      = drain
          (buffer.drop
            (boundary_pos + (boundary_to_search boundary is_first_frame).length))
          boundary is_first_frame :=
  drain_skip h hdec hz

/-- C5 witness: a part with no header/body separator (`ZZ`) before the token
is silently discarded and scanning continues on the remainder. -/
theorem c5_malformed_part_drained_witness :
    findSubseq (strBytes "ZZ--Brest") (boundary_to_search (strBytes "--B") true)
      = some 2 ∧
    (if ((strBytes "ZZ--Brest").take 2).isEmpty then none
     else decodePart ((strBytes "ZZ--Brest").take 2)) = none ∧
    drain (strBytes "ZZ--Brest") (strBytes "--B") true
      = drain
          ((strBytes "ZZ--Brest").drop
            (2 + (boundary_to_search (strBytes "--B") true).length))
          (strBytes "--B") true :=
  ⟨by decide, by decide,
   c5_malformed_part_drained (strBytes "ZZ--Brest") (strBytes "--B") true 2
     (by decide) (by decide) (by decide)⟩

/-- C6.  When the searched token does not occur, the drain reports
`NeedMoreData` with the retained buffer unchanged; an arriving chunk is
appended at the end of the retained buffer and the next scan runs over the
whole of it, so a token split across two reads (here `--BO` + `UND`) is still
found and the frame emitted. -/
theorem c6_buffer_retention :
    (∀ buffer boundary is_first_frame,
      findSubseq buffer (boundary_to_search boundary is_first_frame) = none →
      drain buffer boundary is_first_frame = .needMoreData buffer) ∧
    (∀ boundary buffer buf chunk is_first_frame evs,
      drain buffer boundary is_first_frame = .needMoreData buf →
      streamingStep boundary buffer is_first_frame (.ok chunk :: evs)
        = streamingStep boundary (buf ++ chunk) is_first_frame evs) ∧
    drain (strBytes "x\r\n\r\npayload\r\n--BO") (strBytes "--BOUND") false
      = .needMoreData (strBytes "x\r\n\r\npayload\r\n--BO") ∧
    drain (strBytes "x\r\n\r\npayload\r\n--BO" ++ strBytes "UND")
        (strBytes "--BOUND") false
      = .frameReady (strBytes "payload") [] :=
  ⟨fun _ _ _ h => drain_of_none h,
   fun _ _ _ _ _ _ h => streamingStep_append h,
   by decide, by decide⟩

/-- C6 witness: concrete instance of the no-occurrence case with the buffer
returned untouched. -/
theorem c6_buffer_retention_witness :
    findSubseq (strBytes "partial") (boundary_to_search (strBytes "--Z") true)
      = none ∧
    drain (strBytes "partial") (strBytes "--Z") true
      = .needMoreData (strBytes "partial") :=
  ⟨by decide,
   c6_buffer_retention.1 (strBytes "partial") (strBytes "--Z") true (by decide)⟩

/-- C7.  Every failed connection attempt — transport error, non-2xx status,
missing content type, absent `boundary=` attribute, or a boundary empty after
trimming — emits a descriptive error event and moves from Connecting to
`Sleeping` with the fixed 5-second delay, never to Streaming. -/
theorem c7_connect_failure (resp : Except String HttpResponse)
    (h : connectSuccess resp = false) :
    ∃ e, connectStep resp = (.error e, .sleeping 5) :=
  connectStep_of_failure resp h

/-- C7 witness: an HTTP 500 response and a bare transport error both sleep. -/
theorem c7_connect_failure_witness :
    connectSuccess
        (.ok ⟨500, some "multipart/x-mixed-replace; boundary=frame".data⟩)
      = false ∧
    (∃ e, connectStep
        (.ok ⟨500, some "multipart/x-mixed-replace; boundary=frame".data⟩)
      = (.error e, .sleeping 5)) ∧
    connectSuccess (.error "connection refused") = false ∧
    ∃ e, connectStep (.error "connection refused") = (.error e, .sleeping 5) :=
  ⟨by decide,
   c7_connect_failure
     (.ok ⟨500, some "multipart/x-mixed-replace; boundary=frame".data⟩) (by decide),
   by decide,
   c7_connect_failure (.error "connection refused") (by decide)⟩

/-- C8.  A successful connection whose content type negotiates a non-empty
boundary value enters Streaming with an empty buffer, `is_first_frame = true`
and the internal token built by prefixing the trimmed value with the two-dash
MIME prefix, emitting the connected/waiting status event. -/
theorem c8_connect_ok (response : HttpResponse) (ct boundary_str : List Char)
    (hs : statusIsSuccess response.status = true)
    (hct : response.contentType = some ct)
    (hfind : (splitChar ';' ct).find?
        (fun s => List.isPrefixOf boundaryAttrMarker (trimChars s))
      = some boundary_str)
    (hne : (trimChars (((splitChar '=' boundary_str).get? 1).getD [])).isEmpty
      = false) :
    connectStep (.ok response)
      = (.error "Connected. Waiting for frame...",
         .streaming []
           (charBytes
             ('-' :: '-' :: trimChars (((splitChar '=' boundary_str).get? 1).getD [])))
           true) := by
  simp only [connectStep, hs, hct, hfind, hne, if_true, Bool.false_eq_true,
    if_false]

/-- C8 witness: `multipart/x-mixed-replace; boundary=frame` yields the
internal token `--frame` and the Streaming state. -/
theorem c8_connect_ok_witness :
    statusIsSuccess 200 = true ∧
    connectStep (.ok ⟨200, some "multipart/x-mixed-replace; boundary=frame".data⟩)
      = (.error "Connected. Waiting for frame...",
         .streaming [] (strBytes "--frame") true) :=
  ⟨by decide,
   (c8_connect_ok ⟨200, some "multipart/x-mixed-replace; boundary=frame".data⟩
      "multipart/x-mixed-replace; boundary=frame".data
      " boundary=frame".data
      (by decide) rfl (by decide) (by decide)).trans (by decide)⟩

/-- C9.  Every transition into Sleeping — from a failed connect or from a
streaming transport error / end of stream — carries the fixed 5-second delay,
and the Sleeping state always emits the reconnecting status event and
transitions to Connecting; no state is terminal. -/
theorem c9_fixed_reconnect_delay :
    (∀ resp m s, connectStep resp = (m, s) → ∀ d, s = .sleeping d → d = 5) ∧
    (∀ boundary buffer is_first_frame events m s r,
      streamingStep boundary buffer is_first_frame events = .emit m s r →
      ∀ d, s = .sleeping d → d = 5) ∧
    (∀ d, sleepingStep d = (.error "Reconnecting...", .connecting)) :=
  ⟨fun resp _ _ h => connectStep_sleep_delay resp h,
   fun _ _ _ _ _ _ _ h => streamingStep_sleep_delay h,
   fun _ => rfl⟩

/-- C9 witness: end of stream puts the driver to sleep, and the carried delay
is the fixed 5 seconds. -/
theorem c9_fixed_reconnect_delay_witness :
    streamingStep (strBytes "--B") [] true [.eos]
      = .emit (.error "Stream ended. Reconnecting...") (.sleeping 5) [] ∧
    5 = 5 :=
  ⟨streamingStep_eos
     (show drain [] (strBytes "--B") true = .needMoreData [] by decide),
   c9_fixed_reconnect_delay.2.1 (strBytes "--B") [] true [.eos]
     (.error "Stream ended. Reconnecting...") (.sleeping 5) []
     (streamingStep_eos
       (show drain [] (strBytes "--B") true = .needMoreData [] by decide)) 5 rfl⟩

/-- C10.  Every payload emitted from the Streaming state is cut from the bytes
strictly before the first occurrence of the token searched for in that
iteration, so that token does not occur anywhere in the payload. -/
theorem c10_payload_token_free (buffer boundary : List Nat)
    (is_first_frame : Bool) (payload rest : List Nat)
    (h : drain buffer boundary is_first_frame = .frameReady payload rest) :
    findSubseq payload (boundary_to_search boundary is_first_frame) = none :=
  drainAux_frame_no_token h

/-- C10 witness: the frame `Z` emitted from `--B\r\n\r\nZ--B` contains no
occurrence of the searched token `--B`. -/
theorem c10_payload_token_free_witness :
    drain (strBytes "--B\r\n\r\nZ--B") (strBytes "--B") true
      = .frameReady (strBytes "Z") [] ∧
    findSubseq (strBytes "Z") (boundary_to_search (strBytes "--B") true) = none :=
  ⟨by decide,
   c10_payload_token_free (strBytes "--B\r\n\r\nZ--B") (strBytes "--B") true
     (strBytes "Z") [] (by decide)⟩

end XCoffee
